import Mathlib

/-!
Verification of the silent-disco listening-loop controller and snippet state
machine. Shallow embedding of:
  models/snippet.py           (Snippet dataclass and its transition methods)
  services/spotify_service.py (is_interruption_allowed, start_playback)
  app_integrated.py           (SilentDiscoApp._process_recorded_snippet,
                               process_snippet, run_loop scheduling,
                               retry_recognition, the queue and its window)
  config.py                   (playback_offset_ms)
Filesystem paths, timestamps, logging and the web UI transport are abstracted:
UI notifications appear as elements of an event trace, impure collaborator
calls are parameters giving each call its outcome, and a raised Python
exception is an Except.error value.
-/

namespace SilentDisco

/-- SnippetState enum from models/snippet.py lines 14-22. -/
inductive SnippetState
  | CREATED
  | RECORDED
  | RECOGNIZED
  | UNRECOGNIZED
  | QUEUEABLE
  | QUEUED
  | FAILED
  deriving DecidableEq, Repr

/-- Snippet dataclass from models/snippet.py lines 25-57. The timestamp,
filename and filepath fields are filesystem and clock derived identity data
with no role in the state machine and are omitted; output_folder likewise. -/
structure Snippet where
  snippet_duration : Int
  state : SnippetState
  track_string : Option String
  song_id : Option String
  song_uri : Option String
  song_name : Option String
  song_artist : Option String
  duration_ms : Option Int
  deriving DecidableEq, Repr

namespace Snippet

/-- models/snippet.py lines 106-109. -/
def mark_recorded (s : Snippet) : Snippet :=
  if s.state = SnippetState.CREATED then { s with state := SnippetState.RECORDED } else s

/-- models/snippet.py lines 111-119. -/
def mark_recognized (s : Snippet) (ts : String) : Snippet :=
  if s.state = SnippetState.RECORDED then
    { s with state := SnippetState.RECOGNIZED, track_string := some ts }
  else s

/-- models/snippet.py lines 121-125. -/
def mark_unrecognized (s : Snippet) : Snippet :=
  if s.state = SnippetState.RECORDED then
    { s with state := SnippetState.UNRECOGNIZED, track_string := some "unrecognized" }
  else s

/-- models/snippet.py lines 127-130. -/
def mark_queueable (s : Snippet) : Snippet :=
  if s.state = SnippetState.RECOGNIZED then { s with state := SnippetState.QUEUEABLE } else s

/-- models/snippet.py lines 132-135. -/
def mark_queued (s : Snippet) : Snippet :=
  if s.state = SnippetState.QUEUEABLE then { s with state := SnippetState.QUEUED } else s

/-- models/snippet.py lines 137-139: unconditional assignment of FAILED. -/
def mark_failed (s : Snippet) : Snippet :=
  { s with state := SnippetState.FAILED }

/-- models/snippet.py lines 141-162: the method accepts exactly five data
parameters (song_id, song_uri, song_name, song_artist, duration_ms). -/
def set_spotify_info (s : Snippet) (song_id song_uri song_name song_artist : String)
    (duration_ms : Int) : Snippet :=
  { s with
    song_id := some song_id
    song_uri := some song_uri
    song_name := some song_name
    song_artist := some song_artist
    duration_ms := some duration_ms }

end Snippet

/-- A fresh Snippet as built by the dataclass constructor: state CREATED and
every processing field still empty (models/snippet.py lines 44-57). -/
def freshSnippet (dur : Int) : Snippet :=
  ⟨dur, SnippetState.CREATED, none, none, none, none, none, none⟩

/-- config.py line 53. -/
def playback_offset_ms : Int := 31000

/-- app_integrated.py line 319: position_ms = max(0, snip.duration_ms -
config.app_config.playback_offset_ms), with the offset as a parameter. -/
def position_ms (duration_ms offset_ms : Int) : Int :=
  max 0 (duration_ms - offset_ms)

/-- services/spotify_service.py lines 242-267. The argument is the outcome of
self.client.current_playback(): a raised exception carrying its message, or
None, or a playback dict whose is_playing key is absent or holds a boolean
(a non-boolean value lands in the same final fall-through branch as an
absent key, so Option Bool captures the dispatch exactly). -/
def is_interruption_allowed (resp : Except String (Option (Option Bool))) :
    Bool × String :=
  match resp with
  | Except.error e => (true, "Could not check playback status: " ++ e)
  | Except.ok none => (true, "No active session. Interrupt away!")
  | Except.ok (some (some true)) =>
      (false, "There is an active spotify session right now and music is playing. Interruption not allowed.")
  | Except.ok (some (some false)) =>
      (true, "There is an active spotify session right now but music is NOT playing. Interruption is allowed.")
  | Except.ok (some none) => (true, "No active session. Interrupt away!")

/-- services/spotify_service.py lines 206-240. The two arguments are the
outcomes of the two underlying client calls, in program order: the
start_playback API call and the volume call. Result: first component is the
returned boolean; second component records whether the start call completed
(playback was actually initiated) before any failure. The single try/except
around both calls makes the embedding a total function: no outcome raises. -/
def start_playback (startCall volumeCall : Except String Unit) : Bool × Bool :=
  match startCall with
  | Except.error _ => (false, false)
  | Except.ok _ =>
    match volumeCall with
    | Except.error _ => (false, true)
    | Except.ok _ => (true, true)

/-- SpotifyTrack dataclass from services/spotify_service.py lines 19-27. -/
structure SpotifyTrack where
  id : String
  uri : String
  name : String
  artist : String
  duration_ms : Int
  album_art_url : Option String
  deriving DecidableEq, Repr

/-- Observable collaborator calls and UI notifications issued during one
cycle of app_integrated.py, in program order. -/
inductive Event
  | statusUpdate (phase : String)
  | trackUpdate (blocked : Bool)
  | searchCalled
  | interruptionChecked
  | dedupChecked
  | deviceResolved (id nm : String)
  | playbackCalled (uri : Option String) (pos : Int) (volume : Int)
  deriving DecidableEq, Repr

/-- Outcomes of the collaborator calls one cycle of
SilentDiscoApp._process_recorded_snippet can make. recognitionResult: the
recognition_service.recognize call raises, returns None, or returns an object
whose track_string is the given string (lines 252-265). searchResult:
search_track catches internally and returns a track or None (line 269).
interruptionResult: is_interruption_allowed never raises and returns a pair
(line 286). deviceResult: get_and_activate_device never raises and returns
an id and name or (None, None) (lines 307-309). playbackResult: the boolean
start_playback returns (lines 322-327). -/
structure CycleEnv where
  recognitionResult : Except String (Option String)
  searchResult : Option SpotifyTrack
  interruptionResult : Bool × String
  deviceResult : Option (String × String)
  playbackResult : Bool

/-- The controller state touched by a cycle: self.queue (list the code only
ever appends track_string values to) and self.snippet_history. -/
structure AppState where
  queue : List (Option String)
  snippet_history : List Snippet
  deriving Repr

/-- Python exceptions that escape the embedded code. -/
inductive PyError
  | typeError
  deriving DecidableEq, Repr

/-- Outcome of one processing call: the returned boolean or the escaped
exception, the snippet as left by the call, the controller state, and the
trace of observable events. -/
structure CycleResult where
  result : Except PyError Bool
  snip : Snippet
  st : AppState
  events : List Event
  deriving Repr

/-- app_integrated.py line 296: last_5_songs = self.queue[-5:] if
len(self.queue) >= 5 else self.queue. Python q[-5:] on a list of length
n >= 5 is the suffix starting at index n - 5. -/
def last_5_songs (q : List (Option String)) : List (Option String) :=
  if q.length ≥ 5 then q.drop (q.length - 5) else q

/-- app_integrated.py line 330: self.queue.append(snip.track_string). A plain
list append; nothing is ever removed from self.queue anywhere in the file. -/
def queue_push (q : List (Option String)) (t : Option String) : List (Option String) :=
  q ++ [t]

/-- The call site app_integrated.py lines 272-279 invokes
snip.set_spotify_info with six keyword arguments, including
album_art_url=spotify_track.album_art_url. Snippet.set_spotify_info
(models/snippet.py lines 141-148) declares no album_art_url parameter and no
keyword catch-all, so CPython raises TypeError (unexpected keyword argument)
while binding the arguments, before the method body runs: the snippet is
returned unmodified inside the error. -/
def set_spotify_info_call (_s : Snippet) (_tr : SpotifyTrack) : Except PyError Snippet :=
  Except.error PyError.typeError

/-- SilentDiscoApp._process_recorded_snippet, app_integrated.py lines
246-342, translated branch by branch. Logging is dropped; update_ui_status
and update_ui_track become statusUpdate and trackUpdate events (both wrap
their own internals in try/except and never raise). -/
def process_recorded_snippet (env : CycleEnv) (st : AppState) (snip0 : Snippet) :
    CycleResult :=
  let ev0 : List Event := [Event.statusUpdate "processing"]
  match env.recognitionResult with
  | Except.error _ =>
      ⟨Except.ok false, snip0.mark_failed, st, ev0⟩
  | Except.ok none =>
      ⟨Except.ok false, snip0.mark_unrecognized, st, ev0⟩
  | Except.ok (some ts) =>
    let snip1 := snip0.mark_recognized ts
    let ev1 := ev0 ++ [Event.searchCalled]
    let afterInfo : Except PyError Snippet :=
      match env.searchResult with
      | some tr => set_spotify_info_call snip1 tr
      | none => Except.ok snip1
    match afterInfo with
    | Except.error e => ⟨Except.error e, snip1, st, ev1⟩
    | Except.ok snip2 =>
      let ev2 := ev1 ++ [Event.interruptionChecked]
      if env.interruptionResult.1 = false then
        ⟨Except.ok false, snip2,
         { st with snippet_history := st.snippet_history ++ [snip2] },
         ev2 ++ [Event.trackUpdate true]⟩
      else
        let ev3 := ev2 ++ [Event.dedupChecked]
        if snip2.track_string ∈ last_5_songs st.queue then
          ⟨Except.ok false, snip2, st, ev3⟩
        else
          let snip3 := snip2.mark_queueable
          match env.searchResult with
          | none => ⟨Except.ok false, snip3, st, ev3⟩
          | some _tr =>
            match env.deviceResult with
            | none => ⟨Except.ok false, snip3, st, ev3 ++ [Event.trackUpdate true]⟩
            | some (devId, devName) =>
              let ev4 := ev3 ++ [Event.deviceResolved devId devName]
              match snip3.duration_ms with
              | none =>
                  ⟨Except.error PyError.typeError, snip3, st, ev4⟩
              | some d =>
                let pos := position_ms d playback_offset_ms
                let ev5 := ev4 ++ [Event.playbackCalled snip3.song_uri pos 0]
                if env.playbackResult then
                  ⟨Except.ok true, snip3.mark_queued,
                   ⟨queue_push st.queue snip3.track_string,
                    st.snippet_history ++ [snip3.mark_queued]⟩,
                   ev5 ++ [Event.trackUpdate false]⟩
                else
                  ⟨Except.ok false, snip3, st, ev5 ++ [Event.trackUpdate true]⟩

/-- Outcomes of the recording step of one cycle: whether record_audio raised
(with its message) or returned a status string, and whether the stop event
was set when checked at line 219. -/
structure RecordEnv where
  recordResult : Except String String
  stopEventSet : Bool

/-- SilentDiscoApp.process_snippet, app_integrated.py lines 194-244.
The audio-streamer pause and resume and the snippet-file cleanup are pure
side effects on collaborators that catch their own exceptions; cleanup
(lines 240-244) is a finally block that deletes the file and does not catch,
so the result of process_recorded_snippet, exception included, passes
through unchanged. -/
def process_snippet (dur : Int) (renv : RecordEnv) (env : CycleEnv)
    (st : AppState) : CycleResult :=
  let snip := freshSnippet dur
  let ev0 : List Event := [Event.statusUpdate "recording"]
  match renv.recordResult with
  | Except.error _ =>
      ⟨Except.ok false, snip.mark_failed, st, ev0 ++ [Event.statusUpdate "waiting"]⟩
  | Except.ok _ =>
    if renv.stopEventSet then
      ⟨Except.ok false, snip.mark_failed, st, ev0⟩
    else
      let r := process_recorded_snippet env st snip.mark_recorded
      ⟨r.result, r.snip, r.st, ev0 ++ r.events⟩

/-- The two retry flags of the controller, app_integrated.py lines 55-56. -/
structure ControlFlags where
  retry_now : Bool
  retry_queued : Bool
  deriving DecidableEq, Repr

/-- Return value of retry_recognition: queued models the Python string
literal with value queued, accepted models the Python value True. -/
inductive RetryResult
  | queued
  | accepted
  deriving DecidableEq, Repr

/-- SilentDiscoApp.retry_recognition, app_integrated.py lines 466-478.
cur is self._current_state, with none modelling the attribute being unset
(the hasattr check). -/
def retry_recognition (cur : Option String) (f : ControlFlags) :
    ControlFlags × RetryResult :=
  match cur with
  | some s =>
    if s = "recording" ∨ s = "processing" then
      ({ f with retry_queued := true }, RetryResult.queued)
    else
      ({ f with retry_now := true }, RetryResult.accepted)
  | none => ({ f with retry_now := true }, RetryResult.accepted)

/-- app_integrated.py lines 413-417: after process_snippet returns, if
retry_queued is set the loop clears it and continues, skipping the sleep.
Result: the flags after the check and whether the inter-cycle wait was
skipped. -/
def after_cycle_schedule (f : ControlFlags) : ControlFlags × Bool :=
  if f.retry_queued then ({ f with retry_queued := false }, true)
  else (f, false)

/-- app_integrated.py lines 430-437: the one-second countdown. First
argument: remaining loop iterations (sleep_time downto 1). running models
self.is_running, held constant. f is retry_now at the current check; sig
says, for each subsequent one-second sleep, whether an external
retry_recognition call sets retry_now during it. Returns retry_now after the
loop exits and the number of one-second sleeps performed. When the loop
breaks, retry_now is false: either it was true and line 434 reset it, or the
break was due to is_running and the flag was already false. -/
def countdown_run : Nat → Bool → Bool → List Bool → Bool × Nat
  | 0, _, f, _ => (f, 0)
  | n + 1, running, f, sig =>
    if running = false ∨ f = true then (false, 0)
    else
      let next := countdown_run n running (sig.headD false) sig.tail
      (next.1, next.2 + 1)

/-! Concrete inputs used by the closed theorems below. -/

/-- Empty controller state: queue and snippet_history start as empty lists
(app_integrated.py lines 59-60). -/
def st0 : AppState := ⟨[], []⟩

/-- A snippet that has just been recorded, as handed to
_process_recorded_snippet at line 242. -/
def recSnip : Snippet := (freshSnippet 10).mark_recorded

/-- A search hit for the recognized track. -/
def trackX : SpotifyTrack :=
  ⟨"4uLU6hMCjMI75M1A2tKUQC", "spotify:track:4uLU6hMCjMI75M1A2tKUQC",
   "Song X", "Artist A", 240000, some "https://i.scdn.co/image/art"⟩

/-- Happy-path collaborator outcomes: recognition succeeds, search finds the
track, no active session, a device resolves, playback succeeds. -/
def envHappy : CycleEnv :=
  ⟨Except.ok (some "Artist A - Song X"), some trackX,
   (true, "No active session. Interrupt away!"), some ("dev1", "Device"), true⟩

/-- Same outcomes except the search returns no track. -/
def envSearchMiss : CycleEnv :=
  ⟨Except.ok (some "Artist A - Song X"), none,
   (true, "No active session. Interrupt away!"), some ("dev1", "Device"), true⟩

/-- A successful, uninterrupted recording. -/
def renvOk : RecordEnv := ⟨Except.ok "Recording complete", false⟩

/-- The cycle run on the search-miss outcomes. -/
def missRun : CycleResult := process_recorded_snippet envSearchMiss st0 recSnip

/-- A snippet in the terminal state QUEUED. -/
def queuedSnip : Snippet :=
  ⟨10, SnippetState.QUEUED, some "Artist A - Song X", none, none, none, none, none⟩

/-- A queue already holding five track strings. -/
def q5 : List (Option String) :=
  [some "t1", some "t2", some "t3", some "t4", some "t5"]

/-- Flags with neither retry flag set. -/
def flags0 : ControlFlags := ⟨false, false⟩

/-! Claim theorems. -/

/-- C1 (code bug): on the happy-path cycle (capture succeeded, recognition
returned a track string, search found the track, no active session, empty
recent window, device available) the code does not complete with the snippet
QUEUED; it raises TypeError at the set_spotify_info call (unexpected keyword
argument album_art_url), leaving the snippet in RECOGNIZED, the queue empty,
and the UI without any blocked=false track update. -/
theorem happy_path_cycle_raises_typeerror :
    (process_recorded_snippet envHappy st0 recSnip).result = Except.error PyError.typeError ∧
    (process_recorded_snippet envHappy st0 recSnip).snip.state = SnippetState.RECOGNIZED ∧
    (process_recorded_snippet envHappy st0 recSnip).st.queue = [] ∧
    Event.trackUpdate false ∉ (process_recorded_snippet envHappy st0 recSnip).events := by
  refine ⟨rfl, rfl, rfl, by decide⟩

/-- C2 (code bug): a cycle whose recording and recognition succeed and whose
search finds the track makes process_snippet propagate a TypeError instead of
returning normally; run_loop (lines 399-448) catches only KeyboardInterrupt,
so this exception ends the loop. -/
theorem process_snippet_raises_typeerror :
    (process_snippet 10 renvOk envHappy st0).result = Except.error PyError.typeError := rfl

/-- C3 (counterexample): when the search returns absence the cycle does not
abort at that step: the interruption-permission check and the dedup check are
still performed afterwards and the snippet is marked QUEUEABLE. -/
theorem search_miss_counterexample :
    Event.interruptionChecked ∈ missRun.events ∧
    Event.dedupChecked ∈ missRun.events ∧
    missRun.snip.state = SnippetState.QUEUEABLE := by
  refine ⟨by decide, by decide, rfl⟩

/-- C3 (amended): when the search returns absence the cycle still runs the
interruption and dedup checks and can mark the snippet QUEUEABLE, but it
always returns failure without resolving a device and without any playback
call. -/
theorem search_miss_no_playback :
    ∀ (env : CycleEnv) (st : AppState) (snip : Snippet),
      env.searchResult = none →
      (process_recorded_snippet env st snip).result = Except.ok false ∧
      (∀ i n, Event.deviceResolved i n ∉ (process_recorded_snippet env st snip).events) ∧
      (∀ u p v, Event.playbackCalled u p v ∉ (process_recorded_snippet env st snip).events) := by
  intro env st snip h
  obtain ⟨rec, sr, intr, dev, pb⟩ := env
  simp only at h
  subst h
  rcases rec with e | r
  · simp [process_recorded_snippet]
  · rcases r with _ | ts
    · simp [process_recorded_snippet]
    · simp only [process_recorded_snippet]
      split
      · simp
      · split
        · simp
        · simp

/-- C3 witness: the amended theorem applied to the concrete search-miss
environment. -/
theorem search_miss_no_playback_witness :
    envSearchMiss.searchResult = none ∧
    (process_recorded_snippet envSearchMiss st0 recSnip).result = Except.ok false :=
  ⟨rfl, (search_miss_no_playback envSearchMiss st0 recSnip rfl).1⟩

/-- C4 (counterexample): QUEUED is a terminal state, yet mark_failed changes
the state of a QUEUED snippet to FAILED, mutating it. -/
theorem terminal_state_counterexample :
    queuedSnip.state = SnippetState.QUEUED ∧
    queuedSnip.mark_failed.state = SnippetState.FAILED ∧
    queuedSnip.mark_failed ≠ queuedSnip := by decide

/-- C4 (amended): every guarded transition method is a no-op outside its
exact expected predecessor state, leaving the snippet entirely unchanged (no
exception, no mutation), so no guarded method changes a snippet in a terminal
state; mark_failed, however, unconditionally sets the state to FAILED from
any state, terminal states included. -/
theorem snippet_transition_guards :
    ∀ (s : Snippet) (ts : String),
      (s.state ≠ SnippetState.CREATED → s.mark_recorded = s) ∧
      (s.state ≠ SnippetState.RECORDED → s.mark_recognized ts = s) ∧
      (s.state ≠ SnippetState.RECORDED → s.mark_unrecognized = s) ∧
      (s.state ≠ SnippetState.RECOGNIZED → s.mark_queueable = s) ∧
      (s.state ≠ SnippetState.QUEUEABLE → s.mark_queued = s) ∧
      s.mark_failed.state = SnippetState.FAILED := by
  intro s ts
  refine ⟨?_, ?_, ?_, ?_, ?_, rfl⟩ <;> intro h <;>
    simp [Snippet.mark_recorded, Snippet.mark_recognized, Snippet.mark_unrecognized,
      Snippet.mark_queueable, Snippet.mark_queued, h]

/-- C4 witness: the amended theorem applied to a QUEUED snippet. -/
theorem snippet_transition_guards_witness :
    queuedSnip.state ≠ SnippetState.CREATED ∧
    queuedSnip.mark_recorded = queuedSnip :=
  ⟨by decide, (snippet_transition_guards queuedSnip "x").1 (by decide)⟩

/-- C5 (counterexample): pushing onto the queue when it already holds five
entries does not evict the oldest entry; the queue grows to six entries and
the oldest remains, so the structure is not a fixed-capacity-5 FIFO. -/
theorem queue_push_no_eviction_counterexample :
    q5.length = 5 ∧
    (queue_push q5 (some "t6")).length = 6 ∧
    some "t1" ∈ queue_push q5 (some "t6") := by decide

/-- C5 (amended): the queue itself is unbounded and append-only (each push
grows it by one, never evicting), while the five-entry FIFO window exists
only in the membership view last_5_songs: that view never exceeds five
entries, and a push onto a queue holding at least five slides the view,
dropping its oldest element and appending the new track. -/
theorem queue_window_semantics :
    ∀ (q : List (Option String)) (t : Option String),
      (queue_push q t).length = q.length + 1 ∧
      (last_5_songs q).length ≤ 5 ∧
      (5 ≤ q.length →
        last_5_songs (queue_push q t) = (last_5_songs q).drop 1 ++ [t]) := by
  intro q t
  refine ⟨by simp [queue_push], ?_, ?_⟩
  · unfold last_5_songs
    split
    · simp only [List.length_drop]
      omega
    · omega
  · intro h
    unfold last_5_songs queue_push
    rw [if_pos (by simp only [List.length_append, List.length_cons, List.length_nil]; omega),
        if_pos h, List.drop_drop]
    have h1 : q.length - 5 + 1 = q.length - 4 := by omega
    have h2 : (q ++ [t]).length - 5 = q.length - 4 := by
      simp only [List.length_append, List.length_cons, List.length_nil]
      omega
    rw [h1, h2, List.drop_append_of_le_length (by omega)]

/-- C5 witness: the amended theorem applied to a five-entry queue. -/
theorem queue_window_semantics_witness :
    5 ≤ q5.length ∧
    last_5_songs (queue_push q5 (some "t6")) = (last_5_songs q5).drop 1 ++ [some "t6"] :=
  ⟨by decide, (queue_window_semantics q5 (some "t6")).2.2 (by decide)⟩

/-- C6 (code bug): on a cycle whose recognized track is absent from the
recent window and whose search finds the track, the code never reaches the
dedup check (no dedupChecked event) and never queues the track (the queue is
unchanged): it raises TypeError at the set_spotify_info call first. -/
theorem dedup_unreachable_typeerror :
    last_5_songs st0.queue = [] ∧
    Event.dedupChecked ∉ (process_recorded_snippet envHappy st0 recSnip).events ∧
    (process_recorded_snippet envHappy st0 recSnip).st.queue = st0.queue ∧
    (process_recorded_snippet envHappy st0 recSnip).result = Except.error PyError.typeError := by
  refine ⟨rfl, by decide, rfl, rfl⟩

/-- C7: is_interruption_allowed returns allowed=false exactly when a session
exists with is_playing true, allowed=true in every other case (no session, a
session not actively playing, a malformed is_playing field), and on a raised
transport error it fails open with allowed=true and the failure text in the
reason, never propagating the exception. -/
theorem interruption_policy :
    ∀ resp : Except String (Option (Option Bool)),
      ((is_interruption_allowed resp).1 = false ↔
        resp = Except.ok (some (some true))) ∧
      ((is_interruption_allowed resp).1 = true ↔
        resp ≠ Except.ok (some (some true))) ∧
      (∀ e : String, resp = Except.error e →
        is_interruption_allowed resp = (true, "Could not check playback status: " ++ e)) := by
  intro resp
  rcases resp with e | p
  · refine ⟨by simp [is_interruption_allowed], by simp [is_interruption_allowed], ?_⟩
    intro e2 he
    cases he
    rfl
  · rcases p with _ | ip
    · exact ⟨by simp [is_interruption_allowed], by simp [is_interruption_allowed],
        fun e he => Except.noConfusion he⟩
    · rcases ip with _ | b
      · exact ⟨by simp [is_interruption_allowed], by simp [is_interruption_allowed],
          fun e he => Except.noConfusion he⟩
      · cases b
        · exact ⟨by simp [is_interruption_allowed], by simp [is_interruption_allowed],
            fun e he => Except.noConfusion he⟩
        · exact ⟨by simp [is_interruption_allowed], by simp [is_interruption_allowed],
            fun e he => Except.noConfusion he⟩

/-- C7 witness: the policy theorem applied to a concrete transport failure. -/
theorem interruption_policy_witness :
    is_interruption_allowed (Except.error "network down") =
      (true, "Could not check playback status: " ++ "network down") :=
  (interruption_policy (Except.error "network down")).2.2 "network down" rfl

/-- C8: retry_recognition during the recording or processing phase only sets
retry_queued and reports queued, leaving retry_now (and hence the running
cycle) untouched; in any other phase it sets retry_now and reports accepted.
After a cycle, a set retry_queued flag makes the scheduler skip the wait and
clears the flag, and a second pass does not skip again; a set retry_now flag
makes the one-second countdown exit at once with the flag consumed. -/
theorem retry_control_semantics :
    (∀ (f : ControlFlags) (s : String), s = "recording" ∨ s = "processing" →
       retry_recognition (some s) f = ({ f with retry_queued := true }, RetryResult.queued)) ∧
    (∀ (f : ControlFlags) (s : String), ¬(s = "recording" ∨ s = "processing") →
       retry_recognition (some s) f = ({ f with retry_now := true }, RetryResult.accepted)) ∧
    (∀ f : ControlFlags,
       retry_recognition none f = ({ f with retry_now := true }, RetryResult.accepted)) ∧
    (∀ f : ControlFlags, f.retry_queued = true →
       after_cycle_schedule f = ({ f with retry_queued := false }, true)) ∧
    (∀ f : ControlFlags, (after_cycle_schedule (after_cycle_schedule f).1).2 = false) ∧
    (∀ (r : Nat) (sig : List Bool), countdown_run (r + 1) true true sig = (false, 0)) := by
  refine ⟨?_, ?_, ?_, ?_, ?_, ?_⟩
  · intro f s h
    simp [retry_recognition, h]
  · intro f s h
    simp [retry_recognition, h]
  · intro f
    rfl
  · intro f h
    simp [after_cycle_schedule, h]
  · intro f
    rcases f with ⟨rn, rq⟩
    cases rq <;> simp [after_cycle_schedule]
  · intro r sig
    simp [countdown_run]

/-- C8 witness: the control-semantics theorem applied to concrete phases,
flags and countdown parameters. -/
theorem retry_control_semantics_witness :
    retry_recognition (some "recording") flags0 =
      ({ flags0 with retry_queued := true }, RetryResult.queued) ∧
    after_cycle_schedule ⟨false, true⟩ = (⟨false, false⟩, true) ∧
    countdown_run 50 true true [] = (false, 0) :=
  ⟨retry_control_semantics.1 flags0 "recording" (Or.inl rfl),
   retry_control_semantics.2.2.2.1 ⟨false, true⟩ rfl,
   retry_control_semantics.2.2.2.2.2 49 []⟩

/-- C9: for every track duration d and offset o, the playback start position
max(0, d - o) computed at line 319 is nonnegative and equals d - o whenever
d is at least o. -/
theorem position_ms_spec :
    ∀ d o : Int, 0 ≤ position_ms d o ∧ (o ≤ d → position_ms d o = d - o) := by
  intro d o
  constructor
  · exact le_max_left 0 _
  · intro h
    unfold position_ms
    exact max_eq_right (by omega)

/-- C9 witness: the position theorem at the default offset and a typical
track duration. -/
theorem position_ms_spec_witness :
    0 ≤ position_ms 240000 playback_offset_ms ∧
    position_ms 240000 playback_offset_ms = 240000 - playback_offset_ms :=
  ⟨(position_ms_spec 240000 playback_offset_ms).1,
   (position_ms_spec 240000 playback_offset_ms).2 (by norm_num [playback_offset_ms])⟩

/-- C10: start_playback is total (the surrounding try/except means no outcome
raises outward) and returns true exactly when both underlying calls succeed;
when the start call succeeds but the volume call raises it returns false even
though playback was already initiated, so a false return does not imply that
no playback started. -/
theorem start_playback_nonatomic :
    (∀ s v : Except String Unit,
       ((start_playback s v).1 = true ↔ s = Except.ok () ∧ v = Except.ok ())) ∧
    (∀ e : String, start_playback (Except.ok ()) (Except.error e) = (false, true)) := by
  constructor
  · intro s v
    rcases s with es | us <;> rcases v with ev | uv <;> simp [start_playback]
  · intro e
    rfl

end SilentDisco
